import Mathlib

/-!
Shallow embedding of `src/script.js` (potato-leaf classification frontend).

Conventions of the embedding:
* JavaScript numbers are modelled as exact rationals (`ℚ`); the arithmetic the
  claims exercise (integer pixel sums, a fixed threshold comparison, the
  constant `1e-9`) is exact or far from double rounding boundaries.
* DOM side effects are modelled as fields of a `UIState` record; the text
  content of the result fields is kept as the semantic value assigned to it
  (a `JSValue` for `resultClass.textContent`, a rational for the confidence).
* Asynchronous environment outcomes (image decode, heuristic canvas decode,
  the network) are passed to the step functions as explicit parameters.
-/

/-- The subset of JavaScript values the response-handling code can see. -/
inductive JSValue where
  | undef
  | null
  | bool (b : Bool)
  | num (q : ℚ)
  | str (s : String)
deriving DecidableEq, Repr

/-- JavaScript truthiness, as used by `!data.class` and `json.detail || txt`. -/
def truthy : JSValue → Bool
  | .undef => false
  | .null => false
  | .bool b => b
  | .num q => decide (q ≠ 0)
  | .str s => decide (s ≠ "")

/-- The check `typeof v === "number"`. -/
def isNumberType : JSValue → Bool
  | .num _ => true
  | _ => false

/-- Numeric value of a `JSValue`; only used after `isNumberType` holds. -/
def numVal : JSValue → ℚ
  | .num q => q
  | _ => 0

/-- String coercion, as applied by assigning a value to `textContent`. -/
def jsToString : JSValue → String
  | .undef => "undefined"
  | .null => "null"
  | .bool b => if b then "true" else "false"
  | .num q => if q.den = 1 then toString q.num else toString q
  | .str s => s

/-- A selected file as the validation code sees it: declared mime type and
size in bytes (`file.type`, `file.size`). -/
structure JSFile where
  type : String
  size : ℕ
deriving DecidableEq, Repr

/-- `const API_URL = "https://b-aackend.onrender.com/predict"`. -/
def API_URL : String := "https://b-aackend.onrender.com/predict"

/-- `const MAX_SIZE = 5 * 1024 * 1024` (5 MiB). -/
def MAX_SIZE : ℕ := 5 * 1024 * 1024

/-- `const MIN_DIM = 64`. -/
def MIN_DIM : ℕ := 64

/-- `const CONFIDENCE_THRESHOLD = 0.70`. -/
def CONFIDENCE_THRESHOLD : ℚ := 7 / 10

/-- `"No file selected."` -/
def msgNoFile : String := "No file selected."

/-- `"Please choose an image file (jpg, png)."` -/
def msgInvalidType : String := "Please choose an image file (jpg, png)."

/-- `"File is too large. Max 5MB."` -/
def msgTooLarge : String := "File is too large. Max 5MB."

/-- Character-level model of `String.startsWith` (the byte-level
`String.substrEq` used by core is not kernel-reducible); extensionally the
same prefix test. -/
def stringStartsWith (s pre : String) : Bool :=
  pre.data.isPrefixOf s.data

/-- `validateFile` from the source: first failing rule wins, `none` = valid.
`none` as input models a missing `fileInput.files[0]`. -/
def validateFile : Option JSFile → Option String
  | none => some msgNoFile
  | some f =>
    if ¬ (stringStartsWith f.type "image/") then some msgInvalidType
    else if f.size > MAX_SIZE then some msgTooLarge
    else none

example : validateFile none = some msgNoFile := by decide
example : validateFile (some ⟨"image/jpeg", 1000⟩) = none := by decide
example : validateFile (some ⟨"text/plain", 6 * 1024 * 1024⟩) = some msgInvalidType := by
  decide
example : validateFile (some ⟨"image/png", 6 * 1024 * 1024⟩) = some msgTooLarge := by
  decide

/-- One sampled RGBA pixel of the 64×64 canvas; the alpha channel is never
read by the heuristic, so only `r`, `g`, `b` (each a byte value) are kept. -/
structure Pixel where
  r : ℕ
  g : ℕ
  b : ℕ
deriving DecidableEq, Repr

/-- The loop accumulator `gSum` of `greenRatioHeuristic`. -/
def gSum (buf : List Pixel) : ℕ :=
  (buf.map Pixel.g).sum

/-- The loop accumulator `total` of `greenRatioHeuristic`:
`Σ (r + g + b) / 3` over the sampled pixels, in exact arithmetic. -/
def totalLum (buf : List Pixel) : ℚ :=
  (buf.map (fun p => ((p.r : ℚ) + p.g + p.b) / 3)).sum

/-- The constant `1e-9` guarding the division. -/
def epsGuard : ℚ := 1 / 1000000000

/-- The ratio computed by `greenRatioHeuristic` from the sampled 64×64 pixel
buffer: `gSum / (total + 1e-9)`. -/
def greenRatioHeuristic (buf : List Pixel) : ℚ :=
  (gSum buf : ℚ) / (totalLum buf + epsGuard)

/-- Outcome of the heuristic's image decode: `some buf` when the canvas draw
succeeds and `buf` is the sampled buffer, `none` when `img.onerror` fires. -/
def heurRatio : Option (List Pixel) → ℚ
  | none => 0
  | some buf => greenRatioHeuristic buf

/-- The fixed 64×64 buffer filled with one pixel value. -/
def uniformBuf (p : Pixel) : List Pixel :=
  List.replicate (64 * 64) p

/-- A parsed JSON body, restricted to the three properties the handler reads
(`data.class`, `data.confidence`, `json.detail`); a property that is absent
or not usable is `JSValue.undef`, which is how JavaScript property access
reports it. `cls` stands for the source's `class` (a Lean keyword). -/
structure RespJson where
  cls : JSValue
  confidence : JSValue
  detail : JSValue
deriving DecidableEq, Repr

/-- An HTTP response as the analyze handler observes it. `parsed` is the
outcome of parsing the body text as JSON (`resp.json()` / `JSON.parse`):
`none` means the parse throws (non-JSON body, or a body on which reading a
property throws). `textOk` is whether `resp.text()` resolves. -/
structure HttpResponse where
  ok : Bool
  status : ℕ
  textOk : Bool
  bodyText : String
  parsed : Option RespJson
deriving DecidableEq, Repr

/-- What the network does with the single POST issued for an attempt:
either the response arrives `arrival` ms after the request was issued,
or the transfer fails (TypeError from `fetch`) after `arrival` ms. -/
inductive NetBehavior where
  | resolves (arrival : ℕ) (resp : HttpResponse)
  | fails (arrival : ℕ)
deriving DecidableEq, Repr

/-- Result of `await fetchWithTimeout(...)` as seen by the caller's
`try`/`catch`: a response, an `AbortError` rejection, or another rejection
(network failure). -/
inductive FetchResult where
  | ok (resp : HttpResponse)
  | abortError
  | networkError
deriving DecidableEq, Repr

/-- `fetchWithTimeout` from the source. `timeoutOpt` models the presence of
the `timeout` option (`const { timeout = 15000 } = options`). The
`AbortController` timer fires at `timeout` ms; if the transfer has not
settled strictly before that, `controller.abort()` cancels it and the
`fetch` promise rejects with `AbortError`. The second component records
whether the in-flight transfer was actually aborted. -/
def fetchWithTimeout (timeoutOpt : Option ℕ) (net : NetBehavior) :
    FetchResult × Bool :=
  let timeout := timeoutOpt.getD 15000
  match net with
  | .resolves t resp =>
    if t < timeout then (.ok resp, false) else (.abortError, true)
  | .fails t =>
    if t < timeout then (.networkError, false) else (.abortError, true)

/-- `"Request timed out. Try again later."` -/
def msgTimeout : String := "Request timed out. Try again later."

/-- `"Network error. Check your connection or try again."` -/
def msgNetwork : String := "Network error. Check your connection or try again."

/-- `"Unexpected server response."` -/
def msgUnexpected : String := "Unexpected server response."

/-- `"Model confidence is low — image might not be a potato leaf or is unclear."` -/
def msgLowConfidence : String :=
  "Model confidence is low — image might not be a potato leaf or is unclear."

/-- `"Image doesn\x27t look like a leaf — analysis may be inaccurate."` -/
def msgNotLeaf : String :=
  "Image doesn\x27t look like a leaf — analysis may be inaccurate."

/-- `"Checking image..."` -/
def msgChecking : String := "Checking image..."

/-- `"Analyzing image — please wait..."` -/
def msgAnalyzing : String := "Analyzing image — please wait..."

/-- `"Image resolution is too small. Use a clearer picture."` -/
def msgTooSmall : String := "Image resolution is too small. Use a clearer picture."

/-- `"Couldn\x27t read image. Try another file."` -/
def msgUnreadable : String := "Couldn\x27t read image. Try another file."

/-- The response-interpretation guard of the analyze handler:
`if (!data.class || typeof data.confidence !== "number")` rejects the reply
as malformed; otherwise the reply is accepted with the raw `class` value and
the numeric confidence. -/
def interpretData (data : RespJson) : Except Unit (JSValue × ℚ) :=
  if ¬ (truthy data.cls) ∨ ¬ (isNumberType data.confidence) then .error ()
  else .ok (data.cls, numVal data.confidence)

/-- The error-message selection for a non-2xx response:
`txt = await resp.text().catch(() => "Server error")`, then
`JSON.parse(txt)` with `json.detail || txt` on success and
`txt || "Server error"` on failure. -/
def serverErrorMessage (textOk : Bool) (bodyText : String)
    (parsed : Option RespJson) : String :=
  let txt := if textOk then bodyText else "Server error"
  match parsed with
  | some j => if truthy j.detail then jsToString j.detail else txt
  | none => if txt ≠ "" then txt else "Server error"

/-- The trust tag derived from the accepted confidence. -/
inductive Trust where
  | Confident
  | LowConfidence
deriving DecidableEq, Repr

/-- The classification `data.confidence < CONFIDENCE_THRESHOLD` →
low-confidence warning, otherwise confident. -/
def classifyConfidence (c : ℚ) : Trust :=
  if c < CONFIDENCE_THRESHOLD then .LowConfidence else .Confident

example : classifyConfidence (7 / 10) = .Confident := by
  unfold classifyConfidence CONFIDENCE_THRESHOLD
  norm_num
example : classifyConfidence (699999 / 1000000) = .LowConfidence := by
  unfold classifyConfidence CONFIDENCE_THRESHOLD
  norm_num

/-- The spec-level pipeline state; the analyze handler only ever settles in
`ResultReady` or `Error`, the change handler in `Idle` or `Previewed`
(`Checking` and `Sending` are transient and appear in the action trace). -/
inductive PipelineState where
  | Idle
  | Previewed
  | Checking
  | Sending
  | ResultReady
  | Error
deriving DecidableEq, Repr

/-- Image dimensions reported by `readImageDimensions`. -/
structure Dims where
  width : ℕ
  height : ℕ
deriving DecidableEq, Repr

/-- The DOM state the pipeline reads and writes. Text contents of the result
fields are kept as the semantic values assigned to them (`none` models the
placeholder dash written by `resetResult`). `fileSel` is
`fileInput.files[0]`; clearing `fileInput.value` makes it `none`. -/
structure UIState where
  status : String
  statusIsError : Bool
  spinnerShown : Bool
  resultShown : Bool
  resultClassVal : Option JSValue
  resultConfVal : Option ℚ
  explainShown : Bool
  fileSel : Option JSFile
  previewShown : Bool
  analyzeEnabled : Bool
  pstate : PipelineState
deriving DecidableEq, Repr

/-- Observable actions emitted while a handler runs, in program order. -/
inductive Act where
  | resetResult
  | setStatus (msg : String) (isError : Bool)
  | showSpinner (shown : Bool)
  | showExplain
  | fetchRequest (url : String) (timeoutOpt : Option ℕ)
  | abortFetch
  | showResult
  | clearFileInput
  | showPreview
deriving DecidableEq, Repr

/-- `resetResult()` from the source: hide the result card, restore the
placeholder dashes, hide the explanation. -/
def resetResult (s : UIState) : UIState :=
  { s with
    resultShown := false
    resultClassVal := none
    resultConfVal := none
    explainShown := false }

/-- `setStatus(msg, isError)` from the source. -/
def setStatus (s : UIState) (msg : String) (isError : Bool) : UIState :=
  { s with status := msg, statusIsError := isError }

/-- The `change` handler of `fileInput`: reset the result, validate the new
selection, probe its dimensions (`probe = none` models a decode error),
then either report an error and clear the input, or show the preview and
enable the analyze buttons. -/
def changeStep (s : UIState) (sel : Option JSFile) (probe : Option Dims) :
    UIState × List Act :=
  let s0 := setStatus (resetResult { s with fileSel := sel }) "" false
  let pre : List Act := [.resetResult, .setStatus "" false]
  match validateFile sel with
  | some m =>
    ({ setStatus s0 m true with fileSel := none, pstate := .Idle },
     pre ++ [.setStatus m true, .clearFileInput])
  | none =>
    match probe with
    | none =>
      ({ setStatus s0 msgUnreadable true with fileSel := none, pstate := .Idle },
       pre ++ [.setStatus msgUnreadable true, .clearFileInput])
    | some dims =>
      if dims.width < MIN_DIM ∨ dims.height < MIN_DIM then
        ({ setStatus s0 msgTooSmall true with fileSel := none, pstate := .Idle },
         pre ++ [.setStatus msgTooSmall true, .clearFileInput])
      else
        ({ s0 with previewShown := true, analyzeEnabled := true,
                   pstate := .Previewed },
         pre ++ [.showPreview])

/-- Actions of `onAnalyzeClick` up to and including issuing the POST:
reset, status updates, the heuristic warning when `ratio < 0.18`, the
`Analyzing` status, the spinner, and the single `fetchWithTimeout` call
with `timeout: 20000`. -/
def preActions (warned : Bool) : List Act :=
  [.resetResult, .setStatus "" false, .setStatus msgChecking false] ++
  (if warned then [.setStatus msgNotLeaf true, .showExplain] else []) ++
  [.setStatus msgAnalyzing false, .showSpinner true,
   .fetchRequest API_URL (some 20000)]

/-- `onAnalyzeClick` from the source, as one atomic step. `heur` is the
heuristic decode outcome (`none` = decode failure, which fails open with
ratio 0); `net` is what the network does with the issued request. Returns
the settled DOM state and the trace of observable actions. -/
def analyzeStep (s : UIState) (heur : Option (List Pixel))
    (net : NetBehavior) : UIState × List Act :=
  let s0 := setStatus (resetResult s) "" false
  match validateFile s.fileSel with
  | some m =>
    ({ setStatus s0 m true with pstate := .Error },
     [.resetResult, .setStatus "" false, .setStatus m true])
  | none =>
    let ratio := heurRatio heur
    let warned : Bool := decide (ratio < 18 / 100)
    let s1 :=
      if ratio < 18 / 100 then
        { setStatus s0 msgNotLeaf true with explainShown := true }
      else s0
    let s2 := { setStatus s1 msgAnalyzing false with spinnerShown := true }
    match fetchWithTimeout (some 20000) net with
    | (.abortError, _) =>
      ({ setStatus { s2 with spinnerShown := false } msgTimeout true with
           pstate := .Error },
       preActions warned ++ [.abortFetch, .showSpinner false,
                             .setStatus msgTimeout true])
    | (.networkError, _) =>
      ({ setStatus { s2 with spinnerShown := false } msgNetwork true with
           pstate := .Error },
       preActions warned ++ [.showSpinner false, .setStatus msgNetwork true])
    | (.ok resp, _) =>
      if resp.ok = false then
        let m := serverErrorMessage resp.textOk resp.bodyText resp.parsed
        ({ setStatus { s2 with spinnerShown := false } m true with
             pstate := .Error },
         preActions warned ++ [.setStatus m true, .showSpinner false])
      else
        match resp.parsed with
        | none =>
          ({ setStatus { s2 with spinnerShown := false } msgNetwork true with
               pstate := .Error },
           preActions warned ++ [.showSpinner false,
                                 .setStatus msgNetwork true])
        | some data =>
          let s3 := { s2 with spinnerShown := false }
          match interpretData data with
          | .error _ =>
            ({ setStatus s3 msgUnexpected true with pstate := .Error },
             preActions warned ++ [.showSpinner false,
                                   .setStatus msgUnexpected true])
          | .ok (cls, conf) =>
            let s4 :=
              if conf < CONFIDENCE_THRESHOLD then
                { setStatus s3 msgLowConfidence true with explainShown := true }
              else setStatus s3 "" false
            ({ s4 with resultShown := true, resultClassVal := some cls,
                       resultConfVal := some conf, pstate := .ResultReady },
             preActions warned ++
             ([.showSpinner false] ++
              (if conf < CONFIDENCE_THRESHOLD then
                 [.setStatus msgLowConfidence true, .showExplain]
               else [.setStatus "" false]) ++ [.showResult]))

/-- An inbound UI event together with the environment outcomes its handler
observes. -/
inductive Event where
  | change (sel : Option JSFile) (probe : Option Dims)
  | analyze (heur : Option (List Pixel)) (net : NetBehavior)

/-- One event-handler execution. -/
def stepEv (s : UIState) (e : Event) : UIState :=
  match e with
  | .change sel probe => (changeStep s sel probe).1
  | .analyze heur net => (analyzeStep s heur net).1

/-- The page state after `DOMContentLoaded`: nothing selected, analyze
disabled, nothing shown. -/
def initState : UIState :=
  { status := ""
    statusIsError := false
    spinnerShown := false
    resultShown := false
    resultClassVal := none
    resultConfVal := none
    explainShown := false
    fileSel := none
    previewShown := false
    analyzeEnabled := false
    pstate := .Idle }

/-- The state reached from page load by a sequence of events. -/
def reach (evs : List Event) : UIState :=
  evs.foldl stepEv initState

/-- Predicate selecting the request-issuing action in a trace. -/
def isFetchRequest : Act → Bool
  | .fetchRequest _ _ => true
  | _ => false

/-- The parsed body of the spec's HTTP-500 scenario. -/
def detailModelUnavailable : RespJson :=
  { cls := .undef, confidence := .undef, detail := .str "model unavailable" }

/-- The HTTP 500 response of the spec scenario, body
`\x7b"detail":"model unavailable"\x7d`. -/
def resp500 : HttpResponse :=
  { ok := false, status := 500, textOk := true
    bodyText := "\x7b\"detail\":\"model unavailable\"\x7d"
    parsed := some detailModelUnavailable }

/-- A 2xx response with the given parsed JSON body. -/
def respOkWith (data : RespJson) : HttpResponse :=
  { ok := true, status := 200, textOk := true, bodyText := "", parsed := some data }

/-- A valid 2 MiB JPEG candidate, as in the spec's happy-path scenario. -/
def validJpeg : JSFile :=
  { type := "image/jpeg", size := 2 * 1024 * 1024 }

/-- A previewed state holding the valid JPEG, used to instantiate the
pipeline theorems on concrete inputs. -/
def previewedState : UIState :=
  { initState with
    fileSel := some validJpeg
    previewShown := true
    analyzeEnabled := true
    pstate := .Previewed }


/-- C5 (counterexample): a 6 MiB file with declared type `text/plain`
exceeds the 5 MiB limit, yet `validateFile` reports the invalid-type error,
not the too-large error — the type rule fires first, so `TooLarge` is not
returned "regardless of the file's declared mime type". -/
theorem validateFile_tooLarge_not_regardless_of_type :
    6 * 1024 * 1024 > MAX_SIZE ∧
    validateFile (some ⟨"text/plain", 6 * 1024 * 1024⟩) = some msgInvalidType ∧
    msgInvalidType ≠ msgTooLarge := by
  refine ⟨by decide, by decide, by decide⟩

/-- C5 (amended): for every candidate file whose declared type is an image
type, size exceeding 5 MiB yields the too-large error; the type check
precedes the size check, so only image-typed files can reach it. -/
theorem validateFile_tooLarge_for_image_types (f : JSFile)
    (htype : stringStartsWith f.type "image/" = true)
    (hsize : f.size > MAX_SIZE) :
    validateFile (some f) = some msgTooLarge := by
  simp [validateFile, htype, hsize]

/-- C5 witness: the amended statement at a concrete oversized PNG. -/
theorem validateFile_tooLarge_for_image_types_witness :
    validateFile (some ⟨"image/png", 6 * 1024 * 1024⟩) = some msgTooLarge :=
  validateFile_tooLarge_for_image_types ⟨"image/png", 6 * 1024 * 1024⟩
    (by decide) (by decide)

/-- C1 (counterexample): a structured reply with `class = "Healthy"` and
`confidence = 1.5` — out of the range `[0,1]` — is accepted by the
interpreter, not rejected as malformed: the code checks only
`typeof data.confidence !== "number"` and never the range. -/
theorem interpret_accepts_out_of_range_confidence :
    interpretData ⟨.str "Healthy", .num (3 / 2), .undef⟩ =
      .ok (.str "Healthy", 3 / 2) ∧
    interpretData ⟨.str "Healthy", .num (3 / 2), .undef⟩ ≠ .error () := by
  constructor
  · rfl
  · simp [interpretData, truthy, isNumberType]

/-- C1 (amended): the interpreter accepts a reply exactly when `class` is
truthy and `confidence` has number type; a missing field or a wrong-typed
`confidence` yields the malformed outcome (never an unhandled fault), but
the range of `confidence` is not checked, so out-of-range numbers such as
1.5 are accepted. -/
theorem interpret_malformed_iff_untruthy_class_or_nonnumber :
    (∀ data : RespJson,
      truthy data.cls = false ∨ isNumberType data.confidence = false →
      interpretData data = .error ()) ∧
    (∀ data : RespJson,
      truthy data.cls = true → isNumberType data.confidence = true →
      interpretData data = .ok (data.cls, numVal data.confidence)) ∧
    interpretData ⟨.str "Healthy", .undef, .undef⟩ = .error () ∧
    interpretData ⟨.str "Healthy", .num (3 / 2), .undef⟩ =
      .ok (.str "Healthy", 3 / 2) := by
  refine ⟨?_, ?_, by rfl, by rfl⟩
  · intro data h
    rcases h with h | h <;> simp [interpretData, h]
  · intro data h1 h2
    simp [interpretData, h1, h2]

/-- C1 witness: the amended statement applied at concrete replies. -/
theorem interpret_malformed_iff_witness :
    interpretData ⟨.num 0, .num (9 / 10), .undef⟩ = .error () ∧
    interpretData ⟨.str "Healthy", .num (9 / 10), .undef⟩ =
      .ok (.str "Healthy", numVal (.num (9 / 10))) :=
  ⟨interpret_malformed_iff_untruthy_class_or_nonnumber.1
      ⟨.num 0, .num (9 / 10), .undef⟩ (Or.inl (by rfl)),
   interpret_malformed_iff_untruthy_class_or_nonnumber.2.1
      ⟨.str "Healthy", .num (9 / 10), .undef⟩ (by rfl) (by rfl)⟩


/-- C10: the `class` check is truthiness-based and the `confidence` check is
type-based only: any reply whose `class` is truthy (of any type) and whose
`confidence` is a number is accepted; a missing or empty-string `class` is
malformed, as is a string-typed `confidence`; the reply
`class = 123, confidence = 0.95` is accepted and the number 123 is what the
result field displays. -/
theorem interpret_class_check_is_truthiness_based :
    (∀ data : RespJson,
      truthy data.cls = true → isNumberType data.confidence = true →
      interpretData data = .ok (data.cls, numVal data.confidence)) ∧
    interpretData ⟨.undef, .num (19 / 20), .undef⟩ = .error () ∧
    interpretData ⟨.str "", .num (19 / 20), .undef⟩ = .error () ∧
    interpretData ⟨.str "Healthy", .str "0.9", .undef⟩ = .error () ∧
    interpretData ⟨.num 123, .num (19 / 20), .undef⟩ = .ok (.num 123, 19 / 20) ∧
    jsToString (.num 123) = "123" ∧
    (analyzeStep previewedState none
        (.resolves 100 (respOkWith ⟨.num 123, .num (19 / 20), .undef⟩))).1.resultClassVal
      = some (.num 123) ∧
    (analyzeStep previewedState none
        (.resolves 100 (respOkWith ⟨.num 123, .num (19 / 20), .undef⟩))).1.resultShown
      = true := by
  refine ⟨?_, by rfl, by rfl, by rfl, by rfl, by rfl, by rfl, by rfl⟩
  intro data h1 h2
  simp [interpretData, h1, h2]

/-- C10 witness: the universally quantified conjunct applied at the concrete
reply with a numeric `class`. -/
theorem interpret_class_check_witness :
    interpretData ⟨.num 123, .num (19 / 20), .undef⟩ =
      .ok (JSValue.num 123, numVal (.num (19 / 20))) :=
  interpret_class_check_is_truthiness_based.1
    ⟨.num 123, .num (19 / 20), .undef⟩ (by rfl) (by rfl)

/-- C2: the trust classification is a function of the confidence with an
inclusive lower bound at 0.70: `confidence ≥ 0.70` is Confident,
`confidence < 0.70` is LowConfidence; 0.70 itself is Confident and
0.699999 is LowConfidence. In the pipeline, an accepted confidence below
the threshold settles in `ResultReady` with the explanatory low-confidence
warning shown, and one at or above it settles with no warning message. -/
theorem confidence_threshold_inclusive_at_70 :
    (∀ c : ℚ, CONFIDENCE_THRESHOLD ≤ c → classifyConfidence c = .Confident) ∧
    (∀ c : ℚ, c < CONFIDENCE_THRESHOLD → classifyConfidence c = .LowConfidence) ∧
    classifyConfidence (7 / 10) = .Confident ∧
    classifyConfidence (699999 / 1000000) = .LowConfidence ∧
    (∀ (heur : Option (List Pixel)) (c : ℚ) (t : ℕ), t < 20000 →
      (c < 7 / 10 →
        ((analyzeStep previewedState heur
            (.resolves t (respOkWith ⟨.str "Healthy", .num c, .undef⟩))).1.status
            = msgLowConfidence ∧
         (analyzeStep previewedState heur
            (.resolves t (respOkWith ⟨.str "Healthy", .num c, .undef⟩))).1.explainShown
            = true ∧
         (analyzeStep previewedState heur
            (.resolves t (respOkWith ⟨.str "Healthy", .num c, .undef⟩))).1.pstate
            = .ResultReady)) ∧
      (7 / 10 ≤ c →
        ((analyzeStep previewedState heur
            (.resolves t (respOkWith ⟨.str "Healthy", .num c, .undef⟩))).1.status
            = "" ∧
         (analyzeStep previewedState heur
            (.resolves t (respOkWith ⟨.str "Healthy", .num c, .undef⟩))).1.pstate
            = .ResultReady))) := by
  refine ⟨?_, ?_, ?_, ?_, ?_⟩
  · intro c hc
    simp [classifyConfidence, not_lt.mpr hc]
  · intro c hc
    simp [classifyConfidence, hc]
  · unfold classifyConfidence CONFIDENCE_THRESHOLD
    norm_num
  · unfold classifyConfidence CONFIDENCE_THRESHOLD
    norm_num
  · intro heur c t ht
    have hv : validateFile previewedState.fileSel = none := by rfl
    have hconf : (CONFIDENCE_THRESHOLD : ℚ) = 7 / 10 := by rfl
    constructor
    · intro hc
      simp [analyzeStep, hv, fetchWithTimeout, ht, respOkWith, interpretData,
            truthy, isNumberType, numVal, setStatus, resetResult, hconf, hc,
            not_lt.mpr, le_of_lt]
    · intro hc
      simp [analyzeStep, hv, fetchWithTimeout, ht, respOkWith, interpretData,
            truthy, isNumberType, numVal, setStatus, resetResult, hconf,
            not_lt.mpr hc]

/-- C2 witness: the threshold theorem applied at confidence 0.9 (confident),
0.5 (low), and a concrete low-confidence pipeline run. -/
theorem confidence_threshold_inclusive_witness :
    classifyConfidence (9 / 10) = .Confident ∧
    classifyConfidence (1 / 2) = .LowConfidence ∧
    (analyzeStep previewedState none
        (.resolves 100 (respOkWith ⟨.str "Healthy", .num (1 / 2), .undef⟩))).1.status
      = msgLowConfidence :=
  ⟨confidence_threshold_inclusive_at_70.1 (9 / 10)
      (by unfold CONFIDENCE_THRESHOLD; norm_num),
   confidence_threshold_inclusive_at_70.2.1 (1 / 2)
      (by unfold CONFIDENCE_THRESHOLD; norm_num),
   ((confidence_threshold_inclusive_at_70.2.2.2.2 none (1 / 2) 100
      (by norm_num)).1 (by norm_num)).1⟩

/-- Closed form of the heuristic ratio on a uniform 64×64 buffer. -/
theorem greenRatioHeuristic_uniform (p : Pixel) :
    greenRatioHeuristic (uniformBuf p) =
      (4096 * p.g : ℚ) /
        (4096 * (((p.r : ℚ) + p.g + p.b) / 3) + epsGuard) := by
  unfold greenRatioHeuristic uniformBuf gSum totalLum
  rw [List.map_replicate, List.map_replicate, List.sum_replicate,
      List.sum_replicate, smul_eq_mul, nsmul_eq_mul]
  push_cast
  norm_num

/-- C4 (counterexample): on the all-black 64×64 buffer the heuristic ratio
is exactly 0, not approximately 0.5; and on the pure-green buffer it is
about 3, not approximately 1.0 — the spec's claimed neutral and green
values do not match the formula the code computes. -/
theorem greenRatio_claimed_values_wrong :
    greenRatioHeuristic (uniformBuf ⟨0, 0, 0⟩) = 0 ∧
    ¬ |greenRatioHeuristic (uniformBuf ⟨0, 0, 0⟩) - 1 / 2| < 1 / 10 ∧
    ¬ |greenRatioHeuristic (uniformBuf ⟨0, 255, 0⟩) - 1| < 1 / 10 := by
  have hb := greenRatioHeuristic_uniform ⟨0, 0, 0⟩
  have hg := greenRatioHeuristic_uniform ⟨0, 255, 0⟩
  simp only [epsGuard] at hb hg
  norm_num at hb hg
  refine ⟨?_, ?_, ?_⟩
  · rw [hb]
  · rw [hb, abs_sub_lt_iff]
    norm_num
  · rw [hg, abs_sub_lt_iff]
    norm_num

/-- C4 (amended): the heuristic is a pure function of the sampled 64×64
buffer computing `(Σ green) / (Σ (r+g+b)/3 + 1e-9)`; identical buffers
yield identical ratios; the all-black buffer yields exactly 0, the
all-white buffer yields approximately 1, and the pure-green buffer yields
approximately 3. -/
theorem greenRatio_pure_function_values :
    (∀ b1 b2 : List Pixel, b1 = b2 →
      greenRatioHeuristic b1 = greenRatioHeuristic b2) ∧
    (∀ buf : List Pixel,
      greenRatioHeuristic buf = (gSum buf : ℚ) / (totalLum buf + epsGuard)) ∧
    greenRatioHeuristic (uniformBuf ⟨0, 0, 0⟩) = 0 ∧
    |greenRatioHeuristic (uniformBuf ⟨255, 255, 255⟩) - 1| < 1 / 1000000 ∧
    |greenRatioHeuristic (uniformBuf ⟨0, 255, 0⟩) - 3| < 1 / 1000000 := by
  have hb := greenRatioHeuristic_uniform ⟨0, 0, 0⟩
  have hw := greenRatioHeuristic_uniform ⟨255, 255, 255⟩
  have hg := greenRatioHeuristic_uniform ⟨0, 255, 0⟩
  simp only [epsGuard] at hb hw hg
  norm_num at hb hw hg
  refine ⟨fun b1 b2 h => by rw [h], fun buf => rfl, by rw [hb], ?_, ?_⟩
  · rw [hw, abs_sub_lt_iff]
    norm_num
  · rw [hg, abs_sub_lt_iff]
    norm_num

/-- C4 witness: purity applied at the concrete pure-green buffer. -/
theorem greenRatio_pure_function_witness :
    greenRatioHeuristic (uniformBuf ⟨0, 255, 0⟩) =
      greenRatioHeuristic (uniformBuf ⟨0, 255, 0⟩) :=
  greenRatio_pure_function_values.1 (uniformBuf ⟨0, 255, 0⟩)
    (uniformBuf ⟨0, 255, 0⟩) rfl

/-- Every action trace of a valid-file analyze attempt starts with the
fixed prefix `preActions`, which ends in the single request issue. -/
theorem analyzeStep_actions_shape (s : UIState) (heur : Option (List Pixel))
    (net : NetBehavior) (hvalid : validateFile s.fileSel = none) :
    ∃ rest : List Act,
      (analyzeStep s heur net).2 =
        preActions (decide (heurRatio heur < 18 / 100)) ++ rest := by
  unfold analyzeStep
  rw [hvalid]
  repeat' split
  all_goals try exact ⟨_, rfl⟩
  all_goals simp_all

/-- C6: the heuristic fails open — a decode failure scores 0 — and a ratio
below 0.18 surfaces the non-blocking warning yet the attempt still issues
the network request afterwards; indeed the request is issued for every
ratio, so a low ratio never prevents it. -/
theorem low_ratio_warns_but_proceeds :
    heurRatio none = 0 ∧
    (∀ (s : UIState) (f : JSFile) (heur : Option (List Pixel))
        (net : NetBehavior),
      s.fileSel = some f → validateFile (some f) = none →
      heurRatio heur < 18 / 100 →
      List.Sublist
        [Act.setStatus msgNotLeaf true, Act.fetchRequest API_URL (some 20000)]
        (analyzeStep s heur net).2) ∧
    (∀ (s : UIState) (f : JSFile) (heur : Option (List Pixel))
        (net : NetBehavior),
      s.fileSel = some f → validateFile (some f) = none →
      Act.fetchRequest API_URL (some 20000) ∈ (analyzeStep s heur net).2) := by
  refine ⟨rfl, ?_, ?_⟩
  · intro s f heur net hsel hvalid hratio
    obtain ⟨rest, hr⟩ :=
      analyzeStep_actions_shape s heur net (by rw [hsel]; exact hvalid)
    rw [hr, decide_eq_true hratio]
    exact List.Sublist.trans (by decide) (List.sublist_append_left _ rest)
  · intro s f heur net hsel hvalid
    obtain ⟨rest, hr⟩ :=
      analyzeStep_actions_shape s heur net (by rw [hsel]; exact hvalid)
    rw [hr]
    apply List.mem_append_left
    cases hdec : decide (heurRatio heur < 18 / 100) <;> decide

/-- C6 witness: a decode failure (ratio 0 < 0.18) still reaches the request
on a concrete previewed state. -/
theorem low_ratio_warns_but_proceeds_witness :
    List.Sublist
      [Act.setStatus msgNotLeaf true, Act.fetchRequest API_URL (some 20000)]
      (analyzeStep previewedState none (.resolves 100 resp500)).2 :=
  low_ratio_warns_but_proceeds.2.1 previewedState validJpeg none
    (.resolves 100 resp500) rfl (by rfl) (by norm_num [heurRatio])

/-- C7: a non-2xx response settles the attempt in the error state with the
message chosen by the body: the `detail` string when the body parses as
structured data with a truthy `detail`, the raw body text as fallback; the
concrete HTTP-500 scenario with a `detail` of "model unavailable" surfaces
exactly that message. -/
theorem server_error_surfaces_detail :
    (∀ (txtOk : Bool) (body : String) (j : RespJson),
      truthy j.detail = true →
      serverErrorMessage txtOk body (some j) = jsToString j.detail) ∧
    (∀ body : String, body ≠ "" →
      serverErrorMessage true body none = body) ∧
    (∀ (s : UIState) (f : JSFile) (heur : Option (List Pixel)) (t : ℕ)
        (resp : HttpResponse),
      s.fileSel = some f → validateFile (some f) = none →
      t < 20000 → resp.ok = false →
      ((analyzeStep s heur (.resolves t resp)).1.pstate = .Error ∧
       (analyzeStep s heur (.resolves t resp)).1.status =
         serverErrorMessage resp.textOk resp.bodyText resp.parsed ∧
       (analyzeStep s heur (.resolves t resp)).1.statusIsError = true)) ∧
    ((analyzeStep previewedState none (.resolves 100 resp500)).1.status =
        "model unavailable" ∧
     (analyzeStep previewedState none (.resolves 100 resp500)).1.pstate =
        .Error) := by
  refine ⟨?_, ?_, ?_, by constructor <;> rfl⟩
  · intro txtOk body j h
    simp [serverErrorMessage, h]
  · intro body h
    simp [serverErrorMessage, h]
  · intro s f heur t resp hsel hvalid ht hok
    have hv : validateFile s.fileSel = none := by rw [hsel]; exact hvalid
    refine ⟨?_, ?_, ?_⟩ <;>
      simp [analyzeStep, hv, fetchWithTimeout, ht, hok, setStatus, resetResult]

/-- C7 witness: the detail-selection rule and the pipeline conjunct applied
at the concrete HTTP-500 reply. -/
theorem server_error_surfaces_detail_witness :
    serverErrorMessage true "" (some detailModelUnavailable) =
      jsToString detailModelUnavailable.detail ∧
    (analyzeStep previewedState none (.resolves 100 resp500)).1.pstate =
      .Error :=
  ⟨server_error_surfaces_detail.1 true "" detailModelUnavailable (by rfl),
   (server_error_surfaces_detail.2.2.1 previewedState validJpeg none 100
      resp500 rfl (by rfl) (by norm_num) (by rfl)).1⟩

/-- C3: the analyze call runs under a 20000 ms cancellation timer (the
helper defaults to 15000 ms when no timeout is supplied); when the timer
fires before the response arrives the transfer is aborted — not merely
abandoned — and the attempt settles in the error state with exactly the
timeout message; the trace contains the abort and exactly one issued
request, so no retry ever happens. -/
theorem timeout_aborts_and_reports_once :
    (∀ net : NetBehavior,
      fetchWithTimeout none net = fetchWithTimeout (some 15000) net) ∧
    (∀ (t : ℕ) (resp : HttpResponse), 20000 < t →
      fetchWithTimeout (some 20000) (.resolves t resp) = (.abortError, true)) ∧
    (∀ (s : UIState) (f : JSFile) (heur : Option (List Pixel)) (t : ℕ)
        (resp : HttpResponse),
      s.fileSel = some f → validateFile (some f) = none → 20000 < t →
      ((analyzeStep s heur (.resolves t resp)).1.pstate = .Error ∧
       (analyzeStep s heur (.resolves t resp)).1.status = msgTimeout ∧
       (analyzeStep s heur (.resolves t resp)).1.statusIsError = true ∧
       Act.abortFetch ∈ (analyzeStep s heur (.resolves t resp)).2 ∧
       ((analyzeStep s heur (.resolves t resp)).2.countP isFetchRequest = 1))) := by
  refine ⟨fun net => rfl, ?_, ?_⟩
  · intro t resp ht
    simp [fetchWithTimeout, Nat.not_lt.mpr (Nat.le_of_lt ht)]
  · intro s f heur t resp hsel hvalid ht
    have hv : validateFile s.fileSel = none := by rw [hsel]; exact hvalid
    have hnt : ¬ t < 20000 := Nat.not_lt.mpr (Nat.le_of_lt ht)
    refine ⟨?_, ?_, ?_, ?_, ?_⟩ <;>
      cases hdec : decide (heurRatio heur < 18 / 100) <;>
      simp [analyzeStep, hv, fetchWithTimeout, hnt, setStatus, resetResult,
            preActions, hdec, isFetchRequest, List.countP_append,
            List.countP_cons]

/-- C3 witness: the timeout theorem applied at a concrete attempt whose
response would only arrive after 30000 ms. -/
theorem timeout_aborts_and_reports_once_witness :
    fetchWithTimeout (some 20000) (.resolves 30000 resp500) =
      (.abortError, true) ∧
    (analyzeStep previewedState none (.resolves 30000 resp500)).1.status =
      msgTimeout ∧
    Act.abortFetch ∈ (analyzeStep previewedState none (.resolves 30000 resp500)).2 :=
  ⟨timeout_aborts_and_reports_once.2.1 30000 resp500 (by norm_num),
   (timeout_aborts_and_reports_once.2.2 previewedState validJpeg none 30000
      resp500 rfl (by rfl) (by norm_num)).2.1,
   (timeout_aborts_and_reports_once.2.2 previewedState validJpeg none 30000
      resp500 rfl (by rfl) (by norm_num)).2.2.2.1⟩

/-- After any single handler execution, the result card is visible exactly
when the settled state is `ResultReady`. -/
theorem stepEv_result_iff (s : UIState) (e : Event) :
    ((stepEv s e).resultShown = true ↔
      (stepEv s e).pstate = PipelineState.ResultReady) := by
  cases e with
  | change sel probe =>
    simp only [stepEv, changeStep]
    repeat' split
    all_goals simp [resetResult, setStatus]
  | analyze heur net =>
    simp only [stepEv, analyzeStep]
    repeat' split
    all_goals simp [resetResult, setStatus]

/-- The result-visibility invariant is maintained along any event fold. -/
theorem result_iff_foldl (evs : List Event) : ∀ s : UIState,
    (s.resultShown = true ↔ s.pstate = PipelineState.ResultReady) →
    ((evs.foldl stepEv s).resultShown = true ↔
      (evs.foldl stepEv s).pstate = PipelineState.ResultReady) := by
  induction evs with
  | nil => intro s h; exact h
  | cons e evs ih => intro s _; exact ih (stepEv s e) (stepEv_result_iff s e)

/-- C8: in every reachable pipeline state the result is present exactly when
the state is `ResultReady`, and every analyze attempt begins by clearing the
prior result — the very first action of its trace — before the network
round-trip starts. -/
theorem result_only_in_ResultReady_and_cleared_first :
    (∀ evs : List Event,
      ((reach evs).resultShown = true ↔
        (reach evs).pstate = PipelineState.ResultReady)) ∧
    (∀ (s : UIState) (heur : Option (List Pixel)) (net : NetBehavior),
      (analyzeStep s heur net).2.head? = some Act.resetResult) := by
  constructor
  · intro evs
    exact result_iff_foldl evs initState (by simp [initState])
  · intro s heur net
    unfold analyzeStep
    repeat' split
    all_goals rfl

/-- The analyze handler never touches the file selection. -/
theorem analyzeStep_fileSel (s : UIState) (heur : Option (List Pixel))
    (net : NetBehavior) : (analyzeStep s heur net).1.fileSel = s.fileSel := by
  unfold analyzeStep
  repeat' split
  all_goals simp [resetResult, setStatus]
  all_goals split <;> rfl

/-- Any file selection surviving a change-handler execution passed
validation. -/
theorem changeStep_fileSel_valid (s : UIState) (sel : Option JSFile)
    (probe : Option Dims) (f : JSFile)
    (h : (changeStep s sel probe).1.fileSel = some f) :
    validateFile (some f) = none := by
  revert h
  unfold changeStep
  repeat' split
  all_goals intro h
  all_goals simp [resetResult, setStatus] at h
  all_goals subst h
  all_goals assumption

/-- Any handler execution from a state with a validated (or empty)
selection leaves the selection validated (or empty). -/
theorem stepEv_fileSel_valid (s : UIState) (e : Event)
    (hs : ∀ f : JSFile, s.fileSel = some f → validateFile (some f) = none) :
    ∀ f : JSFile, (stepEv s e).fileSel = some f →
      validateFile (some f) = none := by
  cases e with
  | change sel probe =>
    intro f h
    exact changeStep_fileSel_valid s sel probe f h
  | analyze heur net =>
    intro f h
    rw [stepEv, analyzeStep_fileSel] at h
    exact hs f h

/-- The selection-validity invariant is maintained along any event fold. -/
theorem fileSel_valid_foldl (evs : List Event) : ∀ s : UIState,
    (∀ f : JSFile, s.fileSel = some f → validateFile (some f) = none) →
    ∀ f : JSFile, (evs.foldl stepEv s).fileSel = some f →
      validateFile (some f) = none := by
  induction evs with
  | nil => intro s hs; exact hs
  | cons e evs ih => intro s hs; exact ih (stepEv s e) (stepEv_fileSel_valid s e hs)

/-- C9: validation errors and probe errors (decode failure, too-small
resolution) at selection time clear the file selection and settle back in
the selectable `Idle` state, whereas the analyze handler — whatever the
transport, server, or response outcome — never touches the selection, so
the already-validated file survives for a retry; moreover every reachable
selection has passed validation. -/
theorem validation_errors_clear_file_others_keep_it :
    (∀ (s : UIState) (sel : Option JSFile) (probe : Option Dims) (m : String),
      validateFile sel = some m →
      ((changeStep s sel probe).1.fileSel = none ∧
       (changeStep s sel probe).1.pstate = .Idle)) ∧
    (∀ (s : UIState) (sel : Option JSFile),
      ((changeStep s sel none).1.fileSel = none ∧
       (changeStep s sel none).1.pstate = .Idle)) ∧
    (∀ (s : UIState) (sel : Option JSFile) (d : Dims),
      d.width < MIN_DIM ∨ d.height < MIN_DIM →
      ((changeStep s sel (some d)).1.fileSel = none ∧
       (changeStep s sel (some d)).1.pstate = .Idle)) ∧
    (∀ (s : UIState) (heur : Option (List Pixel)) (net : NetBehavior),
      (analyzeStep s heur net).1.fileSel = s.fileSel) ∧
    (∀ (evs : List Event) (f : JSFile),
      (reach evs).fileSel = some f → validateFile (some f) = none) := by
  refine ⟨?_, ?_, ?_, analyzeStep_fileSel, ?_⟩
  · intro s sel probe m hm
    constructor <;> simp [changeStep, hm, setStatus, resetResult]
  · intro s sel
    unfold changeStep
    repeat' split
    all_goals constructor <;> simp_all [setStatus, resetResult]
  · intro s sel d hd
    unfold changeStep
    repeat' split
    all_goals first
      | (constructor <;> (simp_all [setStatus, resetResult]; done))
      | (exfalso; simp_all; omega)
  · intro evs f
    exact fileSel_valid_foldl evs initState
      (by intro f h; simp [initState] at h) f

/-- C9 witness: a concrete invalid selection is cleared to `Idle`, a
too-small image is cleared to `Idle`, a concrete timed-out analyze attempt
keeps the selection, and a concretely reached selection is validated. -/
theorem validation_errors_clear_file_witness :
    (changeStep initState (some ⟨"text/plain", 100⟩) none).1.fileSel = none ∧
    (changeStep initState (some validJpeg) (some ⟨10, 10⟩)).1.pstate = .Idle ∧
    (analyzeStep previewedState none (.resolves 30000 resp500)).1.fileSel =
      previewedState.fileSel ∧
    validateFile (some validJpeg) = none :=
  ⟨(validation_errors_clear_file_others_keep_it.1 initState
      (some ⟨"text/plain", 100⟩) none msgInvalidType (by rfl)).1,
   (validation_errors_clear_file_others_keep_it.2.2.1 initState
      (some validJpeg) ⟨10, 10⟩ (Or.inl (by decide))).2,
   validation_errors_clear_file_others_keep_it.2.2.2.1 previewedState none
      (.resolves 30000 resp500),
   validation_errors_clear_file_others_keep_it.2.2.2.2
      [Event.change (some validJpeg) (some ⟨800, 600⟩)] validJpeg (by rfl)⟩
